import Mathlib

/-!
Verification of the k6-modern-reporter HTML report generator
(src/k6-modern-reporter.js) against its natural-language specification.

The development is a shallow embedding of the report generator's logic:

* JavaScript numbers are modelled as rationals (`ℚ`); `Math.round` and
  `Number.prototype.toFixed` become explicit rounding functions
  (`jsRound`, `toFixed2`, `toFixed0`).  The `toFixed` calls in the source
  produce decimal strings; the model tracks the exact rational value those
  strings denote.  The one place where a JavaScript computation produces
  `NaN` (dividing an absent byte count, see `calculateStats` below) is
  modelled with `Option ℚ`, `none` standing for `NaN`.
* The k6 summary object is modelled by `Summary`: a `metrics` association
  list (JavaScript object keys are unique; property lookup is `getMetric`)
  and a `root_group` tree.  Absent object fields are `Option`s.
* `calculateStats`, `countChecks` and `escapeHtml` are translated
  function by function from the source.  The status-dependent fragments of
  `generateModernHTML` (the `testStatus` flag, the header gradient, the
  status banner and the subtitle/http-method block) are translated from
  the template's interpolation sites; the constant markup and styling
  between those sites carries no data and is not reproduced.
* `htmlReport` models the entry point applied to an input
  object whose top-level `metrics` / `root_group` keys may be absent; the
  unguarded accesses `data.metrics.http_reqs` and `data.root_group.checks`
  in `calculateStats` throw a `TypeError` in that case, modelled with
  `Except`.
-/

namespace K6

/-! ## JavaScript numeric model -/

/-- `Math.round x` : round half up, `⌊x + 1/2⌋` (JavaScript rounds ties
towards +∞). -/
def jsRound (q : ℚ) : ℤ := ⌊q + 1/2⌋

/-- The rational value denoted by the decimal string `x.toFixed(2)`:
`x` rounded to two decimal places.  (For a rational input the tie is
rounded up; the double-precision ties of the source cannot be observed in
any property proved here.) -/
def toFixed2 (q : ℚ) : ℚ := (jsRound (q * 100) : ℚ) / 100

/-- The rational value denoted by `x.toFixed(0)`. -/
def toFixed0 (q : ℚ) : ℚ := (jsRound q : ℚ)

/-! ## The summary data model (spec §3) -/

/-- The `values` record of a metric.  Each statistic is optional: absent
statistics read as `undefined` in the source and every guarded access
`values.f || 0` becomes `getD 0`.  `p90`/`p95` stand for the keys
`p(90)`/`p(95)`. -/
structure Values where
  count : Option ℚ := none
  rate : Option ℚ := none
  avg : Option ℚ := none
  min : Option ℚ := none
  max : Option ℚ := none
  med : Option ℚ := none
  p90 : Option ℚ := none
  p95 : Option ℚ := none
deriving Repr, DecidableEq

/-- A threshold evaluation result `{ ok: boolean }`. -/
structure ThresholdRes where
  ok : Bool
deriving Repr, DecidableEq

/-- A metric record: a `values` mapping and an optional `thresholds`
mapping from threshold-expression strings to results.  A present mapping
(`some`), even an empty one, is a truthy object in the source. -/
structure Metric where
  values : Values := {}
  thresholds : Option (List (String × ThresholdRes)) := none
deriving Repr, DecidableEq

/-- A check record.  `passes`/`fails` are the non-negative counts of the
data model; an absent field reads as 0 through `parseInt(x || 0)`. -/
structure Check where
  name : String := ""
  passes : Option ℕ := none
  fails : Option ℕ := none
deriving Repr, DecidableEq

/-- A (recursive) group of checks: `name`, an optional `checks` array and
an optional `groups` array of sub-groups. -/
inductive Group : Type where
  | mk : String → Option (List Check) → Option (List Group) → Group
deriving Repr

def Group.name : Group → String
  | .mk n _ _ => n

def Group.checks : Group → Option (List Check)
  | .mk _ c _ => c

def Group.groups : Group → Option (List Group)
  | .mk _ _ g => g

/-- The well-formed summary object: top-level `metrics` and `root_group`
are both present (the malformed case is `DataObj` below). -/
structure Summary where
  metrics : List (String × Metric)
  root_group : Group

/-- Property access `data.metrics.<name>`: the metric stored under a key,
or `none` when the key is absent. -/
def getMetric (data : Summary) (name : String) : Option Metric :=
  (data.metrics.find? (fun p => p.1 == name)).map (·.2)

/-! ## Check-tally helper (source `countChecks`, lines 960–968) -/

/-- A passes/fails pair. -/
structure PF where
  passes : ℕ
  fails : ℕ
deriving Repr, DecidableEq

/-- `countChecks(checks)`: sum `parseInt(check.passes || 0)` and
`parseInt(check.fails || 0)` over the array. -/
def countChecks (checks : List Check) : PF :=
  checks.foldl
    (fun acc c => ⟨acc.passes + c.passes.getD 0, acc.fails + c.fails.getD 0⟩)
    ⟨0, 0⟩

/-! ## The statistics aggregator (source `calculateStats`, lines 854–952) -/

/-- The derived statistics.  Fields that the source stores as `toFixed`
strings are tracked by their rational value; `dataReceived`/`dataSent`
are `Option ℚ` because the source divides `values.count` unguarded, so an
absent count produces `NaN` (`none`). -/
structure Stats where
  totalRequests : ℚ
  successfulRequests : ℚ
  failedRequests : ℚ
  successRate : ℚ
  errorRate : ℚ
  avgResponseTime : ℚ
  p95ResponseTime : ℚ
  maxResponseTime : ℚ
  minResponseTime : ℚ
  thresholdFailures : ℕ
  thresholdCount : ℕ
  checkFailures : ℕ
  checkPasses : ℕ
  totalChecks : ℕ
  maxVUs : ℚ
  avgVUs : ℚ
  iterations : ℚ
  dataReceived : Option ℚ
  dataSent : Option ℚ
  testDuration : ℚ
deriving Repr, DecidableEq

/-- The threshold-tally loop of `calculateStats` (lines 920–931): for
every metric whose `thresholds` mapping is present (a present object is
truthy in the source, an empty one included) increment the count, and for
every expression with a falsy `ok` increment the failures. -/
def thresholdTally (metrics : List (String × Metric)) : ℕ × ℕ :=
  metrics.foldl
    (fun acc p =>
      match p.2.thresholds with
      | some ts => (acc.1 + 1, acc.2 + (ts.filter (fun t => !t.2.ok)).length)
      | none => acc)
    (0, 0)

/-- Pointwise sum of two passes/fails pairs (`stats.checkPasses += passes`,
`stats.checkFailures += fails`). -/
def addPF (a b : PF) : PF := ⟨a.passes + b.passes, a.fails + b.fails⟩

/-- The sub-group check loop of `calculateStats` (lines 941–947): fold over
`root_group.groups || []` and add each group's `countChecks` result when
its `checks` array is present. -/
def groupTally (groups : List Group) (init : PF) : PF :=
  groups.foldl
    (fun acc g =>
      match g.checks with
      | some cs => addPF acc (countChecks cs)
      | none => acc)
    init

/-- `calculateStats(data)`, translated field by field.  The source mutates
a `stats` object initialised to zero defaults; each `let` below computes
the final value of one field (writes to distinct fields are independent,
and `failedRequests`, `successfulRequests`, `errorRate`, `successRate`
are written inside the single `if (data.metrics.http_req_failed)` block
in this order). -/
def calculateStats (data : Summary) : Stats :=
  let totalRequests : ℚ :=
    match getMetric data "http_reqs" with
    | some m => m.values.count.getD 0
    | none => 0
  let failedRequests : ℚ :=
    match getMetric data "http_req_failed" with
    | some m => (jsRound (m.values.rate.getD 0 * totalRequests) : ℚ)
    | none => 0
  let successfulRequests : ℚ :=
    match getMetric data "http_req_failed" with
    | some _ => totalRequests - failedRequests
    | none => 0
  let errorRate : ℚ :=
    match getMetric data "http_req_failed" with
    | some m => toFixed2 (m.values.rate.getD 0 * 100)
    | none => 0
  let successRate : ℚ :=
    match getMetric data "http_req_failed" with
    | some _ => toFixed2 (100 - errorRate)
    | none => 0
  let avgResponseTime : ℚ :=
    match getMetric data "http_req_duration" with
    | some m => toFixed2 (m.values.avg.getD 0)
    | none => 0
  let p95ResponseTime : ℚ :=
    match getMetric data "http_req_duration" with
    | some m => toFixed2 (m.values.p95.getD 0)
    | none => 0
  let maxResponseTime : ℚ :=
    match getMetric data "http_req_duration" with
    | some m => toFixed2 (m.values.max.getD 0)
    | none => 0
  let minResponseTime : ℚ :=
    match getMetric data "http_req_duration" with
    | some m => toFixed2 (m.values.min.getD 0)
    | none => 0
  let maxVUs : ℚ :=
    match getMetric data "vus" with
    | some m => m.values.max.getD 0
    | none => 0
  let avgVUs : ℚ :=
    match getMetric data "vus" with
    | some m => toFixed0 (m.values.avg.getD 0)
    | none => 0
  let iterations : ℚ :=
    match getMetric data "iterations" with
    | some m => m.values.count.getD 0
    | none => 0
  let dataReceived : Option ℚ :=
    match getMetric data "data_received" with
    | some m => m.values.count.map (fun c => toFixed2 (c / 1000000))
    | none => some 0
  let dataSent : Option ℚ :=
    match getMetric data "data_sent" with
    | some m => m.values.count.map (fun c => toFixed2 (c / 1000000))
    | none => some 0
  let tally : ℕ × ℕ := thresholdTally data.metrics
  let rootPF : PF :=
    match data.root_group.checks with
    | some cs => countChecks cs
    | none => ⟨0, 0⟩
  let groupsPF : PF := groupTally (data.root_group.groups.getD []) rootPF
  { totalRequests := totalRequests
    successfulRequests := successfulRequests
    failedRequests := failedRequests
    successRate := successRate
    errorRate := errorRate
    avgResponseTime := avgResponseTime
    p95ResponseTime := p95ResponseTime
    maxResponseTime := maxResponseTime
    minResponseTime := minResponseTime
    thresholdFailures := tally.2
    thresholdCount := tally.1
    checkFailures := groupsPF.fails
    checkPasses := groupsPF.passes
    totalChecks := groupsPF.passes + groupsPF.fails
    maxVUs := maxVUs
    avgVUs := avgVUs
    iterations := iterations
    dataReceived := dataReceived
    dataSent := dataSent
    testDuration := 0 }

/-! ## Escaping utility (source `escapeHtml`, lines 1282–1291) -/

/-- The entity map of `escapeHtml` (keys are the one-character strings the
regex `[&<>"']` matches). -/
def escapeMap : List (String × String) :=
  [("&", "&amp;"), ("<", "&lt;"), (">", "&gt;"), ("\"", "&quot;"), ("'", "&#039;")]

/-- One step of `String(text).replace(/[&<>"']/g, m => map[m])`: a
character in the regex class is replaced by its entity from the map, any
other character passes through. -/
def escapeChar (c : Char) : String :=
  if c == '&' || c == '<' || c == '>' || c == '"' || c == '\'' then
    match escapeMap.find? (fun p => p.1 == String.singleton c) with
    | some p => p.2
    | none => String.singleton c
  else String.singleton c

/-- `escapeHtml(text)`: the global regex replace applied left to right,
character by character.  The source first coerces its argument with
`String(text)`; the model takes the coerced string. -/
def escapeHtml (text : String) : String :=
  String.join (text.data.map escapeChar)

/-! ## Status-dependent fragments of `generateModernHTML` -/

/-- Line 60: `stats.failedRequests === 0 && stats.checkFailures === 0 &&
stats.thresholdFailures === 0`. -/
def testStatus (stats : Stats) : Bool :=
  decide (stats.failedRequests = 0) && decide (stats.checkFailures = 0)
    && decide (stats.thresholdFailures = 0)

/-- The header gradient chosen on line 109 when `testStatus` holds. -/
def passGradient : String := "linear-gradient(135deg, #11998e 0%, #38ef7d 100%)"

/-- The header gradient chosen on line 109 when `testStatus` fails. -/
def failGradient : String := "linear-gradient(135deg, #eb3349 0%, #f45c43 100%)"

/-- Line 109: the gradient of the `.header` rule, the report's visual
theme. -/
def headerGradient (stats : Stats) : String :=
  if testStatus stats then passGradient else failGradient

/-- The banner text of the passing report (lines 674 and 678). -/
def passBannerText : String := "✅ ALL TESTS PASSED"

/-- The banner text of the failing report (lines 674 and 678). -/
def failBannerText : String := "❌ TESTS FAILED"

/-- Lines 674/678: the text of the `test-status` banner. -/
def statusBanner (stats : Stats) : String :=
  if testStatus stats then passBannerText else failBannerText

/-- Line 670: `httpMethod ? `<span class="http-method-badge
method-${httpMethod}">${httpMethod}</span>` : '<i class="fas
fa-link"></i>'`.  Note that `httpMethod` is interpolated directly, without
`escapeHtml`. -/
def methodBadge (httpMethod : String) : String :=
  if httpMethod ≠ "" then
    "<span class=\"http-method-badge method-" ++ httpMethod ++ "\">"
      ++ httpMethod ++ "</span>"
  else "<i class=\"fas fa-link\"></i>"

/-- Lines 668–680: the `${subtitle ? ... : ...}` block of the header,
with the template's own newlines and indentation. -/
def headerSubtitleBlock (subtitle httpMethod : String) (stats : Stats) : String :=
  if subtitle ≠ "" then
    "\n                <div class=\"header-subtitle\">\n                    "
      ++ methodBadge httpMethod
      ++ "\n                    "
      ++ escapeHtml subtitle
      ++ "\n                </div>\n                <span class=\"test-status\" style=\"margin-top: 15px;\">\n                    "
      ++ statusBanner stats
      ++ "\n                </span>\n                "
  else
    "\n                <span class=\"test-status\">\n                    "
      ++ statusBanner stats
      ++ "\n                </span>\n                "

/-- The data-dependent interpolations of `generateModernHTML`
(lines 58–845) in template order: the escaped title of the `<title>` tag
(line 68), the status-dependent header gradient (line 109), the escaped
title of the header (line 666), the subtitle/http-method/status block
(lines 668–680) and the generation timestamp (line 683).  The constant
markup, styling and tab script between these sites carries no input data
and is not reproduced; the remaining numeric interpolations render fields
of `stats` whose values the statistics theorems below characterise. -/
def generateModernHTML (title subtitle httpMethod : String) (stats : Stats)
    (now : String) : String :=
  "<title>K6 Performance Test Report - " ++ escapeHtml title ++ "</title>"
    ++ headerGradient stats
    ++ escapeHtml title
    ++ headerSubtitleBlock subtitle httpMethod stats
    ++ now

/-! ## The entry point on a possibly malformed input (spec §7, §9) -/

/-- A structural-access fault: the `TypeError` a property access on
`undefined` throws. -/
inductive JsError where
  | typeError (msg : String)
deriving Repr, DecidableEq

/-- An input object whose top-level `metrics`/`root_group` keys may be
absent (`Summary` is the well-formed case). -/
structure DataObj where
  metrics : Option (List (String × Metric)) := none
  root_group : Option Group := none

/-- `calculateStats` on a possibly malformed input.  Line 880
(`data.metrics.http_reqs`) throws when `metrics` is absent; line 934
(`data.root_group.checks`) throws when `root_group` is absent (line 880
runs first, so an absent `metrics` faults there even though the `for`
loop of line 921 would not itself throw). -/
def calculateStatsChecked (d : DataObj) : Except JsError Stats :=
  match d.metrics with
  | none => .error (.typeError "http_reqs of undefined")
  | some ms =>
    match d.root_group with
    | none => .error (.typeError "checks of undefined")
    | some g => .ok (calculateStats ⟨ms, g⟩)

/-- The recognized `options` keys of `htmlReport` (lines 25–31). -/
structure ReportOptions where
  title : Option String := none
  subtitle : Option String := none
  httpMethod : Option String := none
  additionalInfo : Option (List (String × String)) := none
  debug : Option Bool := none

/-- `x || d` on an option-typed string: an absent or empty (falsy) value
picks the default. -/
def orDefault (v : Option String) (d : String) : String :=
  match v with
  | some s => if s = "" then d else s
  | none => d

/-- The entry point `htmlReport(data, options)` (lines 25–45) on a
possibly malformed input object.  `now` stands for the ambient timestamp
`new Date().toISOString().slice(0, 16).replace("T", " ")` used as the
default title and for the footer timestamp; the `debug` console logging
is a side effect without influence on the result. -/
def htmlReport (d : DataObj) (options : ReportOptions) (now : String) :
    Except JsError String :=
  let title := orDefault options.title now
  let subtitle := orDefault options.subtitle ""
  let httpMethod := orDefault options.httpMethod ""
  match calculateStatsChecked d with
  | .error e => .error e
  | .ok stats => .ok (generateModernHTML title subtitle httpMethod stats now)

/-- `pat` occurs in `s` as a contiguous substring: at some position of
`s`, the character list of `pat` is a prefix of the rest of `s`. -/
def containsStr (s pat : String) : Bool :=
  (List.range (s.data.length + 1)).any (fun i => pat.data.isPrefixOf (s.data.drop i))

/-! ## Spec-side definition for the threshold count

The specification words the threshold tally as counting metrics "carrying
a non-empty `thresholds` mapping"; this definition follows those words, to
be compared with what `calculateStats` computes. -/

/-- The number of metrics of a summary whose `thresholds` mapping is
present and non-empty (the specification's reading of `thresholdCount`). -/
def metricsWithNonEmptyThresholds (s : Summary) : ℕ :=
  s.metrics.countP (fun p =>
    match p.2.thresholds with
    | some ts => !ts.isEmpty
    | none => false)

/-! ## Concrete inputs used by witnesses and counterexamples -/

/-- A summary with no metrics and an empty root group. -/
def emptySummary : Summary := ⟨[], Group.mk "" none none⟩

/-- 10 requests, half of them failed. -/
def halfFailedSummary : Summary :=
  ⟨[("http_reqs", { values := { count := some 10 } }),
    ("http_req_failed", { values := { rate := some (1/2) } })],
   Group.mk "" none none⟩

/-- One metric carrying a present but empty `thresholds` mapping. -/
def emptyThresholdsSummary : Summary :=
  ⟨[("m", { values := {}, thresholds := some [] })], Group.mk "" none none⟩

/-- Two metrics, each with one threshold expression: one passing, one
failing (the specification's threshold-tally scenario). -/
def twoThresholdSummary : Summary :=
  ⟨[("http_req_duration", { values := {}, thresholds := some [("p(95)<1000", ⟨true⟩)] }),
    ("http_req_failed", { values := {}, thresholds := some [("rate==0.00", ⟨false⟩)] })],
   Group.mk "" none none⟩

/-- The specification's check-group scenario: root check A (3 passes),
group G1 with check B (1 pass, 1 fail). -/
def checkScenarioSummary : Summary :=
  ⟨[], Group.mk ""
        (some [{ name := "A", passes := some 3, fails := some 0 }])
        (some [Group.mk "G1" (some [{ name := "B", passes := some 1, fails := some 1 }]) none])⟩

/-- A summary whose `data_received` metric is present but has no
`values.count` sub-field. -/
def noByteCountSummary : Summary :=
  ⟨[("data_received", { values := {} })], Group.mk "" none none⟩

/-- `http_req_failed` present with the tiny positive rate 1/100000 and no
`http_reqs` metric. -/
def tinyRateSummary : Summary :=
  ⟨[("http_req_failed", { values := { rate := some (1/100000) } })],
   Group.mk "" none none⟩

/-- `http_req_failed` present with rate 1/100 (1 %) and no `http_reqs`
metric. -/
def onePercentRateSummary : Summary :=
  ⟨[("http_req_failed", { values := { rate := some (1/100) } })],
   Group.mk "" none none⟩

/-- The header fragment rendered with a subtitle and an adversarial
`httpMethod` value. -/
def scriptMethodFragment : String :=
  headerSubtitleBlock "Login endpoint" "<script>alert(1)</script>"
    (calculateStats emptySummary)

/-! ## Helper lemmas -/

/-- `x.toFixed(2)` rounds to a multiple of 1/100, so re-rounding
`100 - errorRate` returns it unchanged: the chained rounding of
`successRate` is exact. -/
theorem toFixed2_hundred_sub (x : ℚ) :
    toFixed2 (100 - toFixed2 x) = 100 - toFixed2 x := by
  unfold toFixed2 jsRound
  set k : ℤ := ⌊x * 100 + 1/2⌋ with hk
  have h1 : (100 - (k : ℚ) / 100) * 100 + 1/2 = ((10000 - k : ℤ) : ℚ) + 1/2 := by
    push_cast; ring
  rw [h1, Int.floor_int_add]
  have h2 : ⌊(1/2 : ℚ)⌋ = 0 := by norm_num
  rw [h2]
  push_cast
  ring

theorem jsRound_zero : jsRound 0 = 0 := by
  norm_num [jsRound]

theorem toFixed2_zero : toFixed2 0 = 0 := by
  norm_num [toFixed2, jsRound]

theorem toFixed0_zero : toFixed0 0 = 0 := by
  norm_num [toFixed0, jsRound]

/-- Closed form of the threshold-tally fold: the count is the number of
metrics with a present `thresholds` mapping, the failures are the total
number of falsy-`ok` expressions. -/
theorem thresholdTally_closed (ms : List (String × Metric)) :
    thresholdTally ms
      = (ms.countP (fun p => p.2.thresholds.isSome),
         (ms.map
           (fun p => ((p.2.thresholds.getD []).filter (fun t => !t.2.ok)).length)).sum) := by
  have general : ∀ (l : List (String × Metric)) (a : ℕ × ℕ),
      l.foldl
        (fun acc p =>
          match p.2.thresholds with
          | some ts => (acc.1 + 1, acc.2 + (ts.filter (fun t => !t.2.ok)).length)
          | none => acc)
        a
      = (a.1 + l.countP (fun p => p.2.thresholds.isSome),
         a.2 + (l.map
           (fun p => ((p.2.thresholds.getD []).filter (fun t => !t.2.ok)).length)).sum) := by
    intro l
    induction l with
    | nil => intro a; simp
    | cons hd tl ih =>
      intro a
      cases h : hd.2.thresholds with
      | none => simp [List.foldl_cons, h, ih, List.countP_cons]
      | some ts =>
        simp [List.foldl_cons, h, ih, List.countP_cons]
        omega
  simpa using general ms (0, 0)

/-- Closed form of the sub-group fold: each direct group contributes the
tally of its own `checks` array. -/
theorem groupTally_closed (gs : List Group) (a : PF) :
    groupTally gs a
      = ⟨a.passes + (gs.map (fun g => (countChecks (g.checks.getD [])).passes)).sum,
         a.fails + (gs.map (fun g => (countChecks (g.checks.getD [])).fails)).sum⟩ := by
  induction gs generalizing a with
  | nil => simp [groupTally]
  | cons hd tl ih =>
    cases h : hd.checks with
    | none =>
      simp [groupTally, List.foldl_cons, h] at ih ⊢
      rw [ih]
      simp [h, countChecks]
    | some cs =>
      simp [groupTally, List.foldl_cons, h] at ih ⊢
      rw [ih]
      simp [h, addPF]
      omega

/-- `testStatus` as a proposition on the three tallies of line 60. -/
theorem testStatus_eq_true_iff (st : Stats) :
    testStatus st = true ↔
      (st.failedRequests = 0 ∧ st.checkFailures = 0 ∧ st.thresholdFailures = 0) := by
  simp [testStatus, Bool.and_eq_true, decide_eq_true_eq, and_assoc]

/-! ## The claims -/

/-- C1.  When `http_req_failed` (rate `r`) and `http_reqs` (count `n`)
are both present, the aggregator sets `failedRequests = round(r * n)` and
`successfulRequests = n - failedRequests`, so the two sum to
`totalRequests`; when `http_req_failed` is absent both stay at their zero
defaults. -/
theorem requests_split_by_failure_rate :
    (∀ (s : Summary) (mf mr : Metric) (r n : ℚ),
        getMetric s "http_req_failed" = some mf →
        getMetric s "http_reqs" = some mr →
        mf.values.rate = some r →
        mr.values.count = some n →
        (calculateStats s).totalRequests = n ∧
        (calculateStats s).failedRequests = (jsRound (r * n) : ℚ) ∧
        (calculateStats s).successfulRequests = n - (jsRound (r * n) : ℚ) ∧
        (calculateStats s).successfulRequests + (calculateStats s).failedRequests
          = (calculateStats s).totalRequests) ∧
    (∀ s : Summary,
        getMetric s "http_req_failed" = none →
        (calculateStats s).failedRequests = 0 ∧
        (calculateStats s).successfulRequests = 0) := by
  constructor
  · intro s mf mr r n hf hr hrate hcount
    refine ⟨?_, ?_, ?_, ?_⟩ <;> simp [calculateStats, hf, hr, hrate, hcount]
  · intro s hf
    constructor <;> simp [calculateStats, hf]

/-- Witness for C1: on `halfFailedSummary` (10 requests, failure rate
1/2) the split is 5 failed, 5 successful; on `emptySummary` the defaults
remain. -/
theorem requests_split_by_failure_rate_witness :
    ((calculateStats halfFailedSummary).totalRequests = 10 ∧
     (calculateStats halfFailedSummary).failedRequests = 5 ∧
     (calculateStats halfFailedSummary).successfulRequests = 5) ∧
    ((calculateStats emptySummary).failedRequests = 0 ∧
     (calculateStats emptySummary).successfulRequests = 0) := by
  have hf : getMetric halfFailedSummary "http_req_failed"
      = some { values := { rate := some (1/2) } } := by
    simp [getMetric, halfFailedSummary, List.find?]
  have hr : getMetric halfFailedSummary "http_reqs"
      = some { values := { count := some 10 } } := by
    simp [getMetric, halfFailedSummary, List.find?]
  have h := requests_split_by_failure_rate.1 halfFailedSummary _ _ (1/2) 10 hf hr rfl rfl
  have he := requests_split_by_failure_rate.2 emptySummary rfl
  have hround : (jsRound (1/2 * 10) : ℚ) = 5 := by norm_num [jsRound]
  refine ⟨⟨h.1, ?_, ?_⟩, he⟩
  · rw [h.2.1, hround]
  · rw [h.2.2.1, hround]; norm_num

/-- C2.  The rendered document carries the PASS banner and the PASS
header theme exactly when the derived `failedRequests`, `checkFailures`
and `thresholdFailures` are all zero; otherwise both flip to the FAIL
presentation. -/
theorem pass_presentation_iff_all_zero (s : Summary) :
    ((statusBanner (calculateStats s) = passBannerText ∧
      headerGradient (calculateStats s) = passGradient)
      ↔ ((calculateStats s).failedRequests = 0 ∧
         (calculateStats s).checkFailures = 0 ∧
         (calculateStats s).thresholdFailures = 0)) ∧
    (¬((calculateStats s).failedRequests = 0 ∧
       (calculateStats s).checkFailures = 0 ∧
       (calculateStats s).thresholdFailures = 0) →
      statusBanner (calculateStats s) = failBannerText ∧
      headerGradient (calculateStats s) = failGradient) := by
  have hb : passBannerText ≠ failBannerText := by decide
  constructor
  · constructor
    · intro ⟨h1, _⟩
      by_contra hc
      have hfalse : testStatus (calculateStats s) = false := by
        rcases Bool.eq_false_or_eq_true (testStatus (calculateStats s)) with h | h
        · exact absurd ((testStatus_eq_true_iff _).mp h) hc
        · exact h
      rw [statusBanner, hfalse] at h1
      simp at h1
      exact hb h1.symm
    · intro h
      have htrue : testStatus (calculateStats s) = true :=
        (testStatus_eq_true_iff _).mpr h
      exact ⟨by simp [statusBanner, htrue], by simp [headerGradient, htrue]⟩
  · intro hc
    have hfalse : testStatus (calculateStats s) = false := by
      rcases Bool.eq_false_or_eq_true (testStatus (calculateStats s)) with h | h
      · exact absurd ((testStatus_eq_true_iff _).mp h) hc
      · exact h
    exact ⟨by simp [statusBanner, hfalse], by simp [headerGradient, hfalse]⟩

/-- Counterexample for C3: a metric with a present but *empty*
`thresholds` mapping still increments `thresholdCount` (a present object
is truthy), so the count is 1 where the claim's "non-empty mapping"
reading predicts 0. -/
theorem threshold_count_includes_empty_mapping :
    (calculateStats emptyThresholdsSummary).thresholdCount = 1 ∧
    metricsWithNonEmptyThresholds emptyThresholdsSummary = 0 ∧
    (calculateStats emptyThresholdsSummary).thresholdCount
      ≠ metricsWithNonEmptyThresholds emptyThresholdsSummary := by
  refine ⟨rfl, rfl, by decide⟩

/-- C3 as amended: `thresholdCount` is incremented once per metric whose
`thresholds` mapping is *present* (an empty mapping included), and
`thresholdFailures` once per threshold expression whose `ok` flag is
falsy; the specification's two-metric scenario yields 2 and 1. -/
theorem threshold_tally_per_present_mapping :
    (∀ s : Summary,
        (calculateStats s).thresholdCount
          = s.metrics.countP (fun p => p.2.thresholds.isSome) ∧
        (calculateStats s).thresholdFailures
          = (s.metrics.map
              (fun p => ((p.2.thresholds.getD []).filter (fun t => !t.2.ok)).length)).sum) ∧
    ((calculateStats twoThresholdSummary).thresholdCount = 2 ∧
     (calculateStats twoThresholdSummary).thresholdFailures = 1) := by
  constructor
  · intro s
    constructor <;> simp [calculateStats, thresholdTally_closed]
  · exact ⟨rfl, rfl⟩

/-- C4.  `checkPasses`/`checkFailures` sum the `passes`/`fails` of
`root_group.checks` and of the `checks` array of each direct sub-group
only (deeper nesting is never visited, as the closed form shows), with
`totalChecks = checkPasses + checkFailures` always; the specification's
scenario yields 4 passes, 1 failure, 5 checks. -/
theorem check_tally_one_level_deep :
    (∀ s : Summary,
        (calculateStats s).checkPasses
          = (countChecks (s.root_group.checks.getD [])).passes
            + ((s.root_group.groups.getD []).map
                (fun g => (countChecks (g.checks.getD [])).passes)).sum ∧
        (calculateStats s).checkFailures
          = (countChecks (s.root_group.checks.getD [])).fails
            + ((s.root_group.groups.getD []).map
                (fun g => (countChecks (g.checks.getD [])).fails)).sum ∧
        (calculateStats s).totalChecks
          = (calculateStats s).checkPasses + (calculateStats s).checkFailures) ∧
    ((calculateStats checkScenarioSummary).checkPasses = 4 ∧
     (calculateStats checkScenarioSummary).checkFailures = 1 ∧
     (calculateStats checkScenarioSummary).totalChecks = 5) := by
  constructor
  · intro s
    have hroot : (match s.root_group.checks with
        | some cs => countChecks cs
        | none => (⟨0, 0⟩ : PF))
        = countChecks (s.root_group.checks.getD []) := by
      cases s.root_group.checks <;> simp [countChecks]
    refine ⟨?_, ?_, ?_⟩ <;>
      simp [calculateStats, groupTally_closed, hroot]
  · exact ⟨rfl, rfl, rfl⟩

set_option maxRecDepth 8000

/-- C5 (failing input).  The header template interpolates `httpMethod`
twice without `escapeHtml` (line 670): with a non-empty subtitle and
`httpMethod = "<script>alert(1)</script>"`, the rendered fragment
contains the raw string and not its escaped form — every other
interpolated string passes through `escapeHtml`, so the uniform escaping
discipline the specification states is broken exactly here. -/
theorem httpMethod_rendered_unescaped :
    containsStr scriptMethodFragment "<script>alert(1)</script>" = true ∧
    escapeHtml "<script>alert(1)</script>" = "&lt;script&gt;alert(1)&lt;/script&gt;" ∧
    containsStr scriptMethodFragment "&lt;script&gt;alert(1)&lt;/script&gt;" = false := by
  refine ⟨by decide, rfl, by decide⟩

/-- C6.  With `http_req_failed` present, `errorRate` is the rate times
100 rounded to two decimals, and `successRate` is computed as 100 minus
that already-rounded value (not from the raw rate) and rounded again —
which changes nothing, so the two rendered rates sum to exactly 100. -/
theorem success_rate_complements_error_rate (s : Summary) (mf : Metric)
    (hf : getMetric s "http_req_failed" = some mf) :
    (calculateStats s).errorRate = toFixed2 (mf.values.rate.getD 0 * 100) ∧
    (calculateStats s).successRate = toFixed2 (100 - (calculateStats s).errorRate) ∧
    (calculateStats s).successRate = 100 - (calculateStats s).errorRate ∧
    (calculateStats s).errorRate + (calculateStats s).successRate = 100 := by
  have h1 : (calculateStats s).errorRate = toFixed2 (mf.values.rate.getD 0 * 100) := by
    simp [calculateStats, hf]
  have h2 : (calculateStats s).successRate
      = toFixed2 (100 - (calculateStats s).errorRate) := by
    simp [calculateStats, hf]
  have h3 : (calculateStats s).successRate = 100 - (calculateStats s).errorRate := by
    rw [h2, h1, toFixed2_hundred_sub, ← h1]
  refine ⟨h1, h2, h3, ?_⟩
  rw [h3]; ring

/-- Witness for C6: on `halfFailedSummary` the error rate is 50, the
success rate 50, and they sum to 100. -/
theorem success_rate_complements_error_rate_witness :
    (calculateStats halfFailedSummary).errorRate
        + (calculateStats halfFailedSummary).successRate = 100 ∧
    (calculateStats halfFailedSummary).errorRate = 50 := by
  have hf : getMetric halfFailedSummary "http_req_failed"
      = some { values := { rate := some (1/2) } } := by
    simp [getMetric, halfFailedSummary, List.find?]
  have h := success_rate_complements_error_rate halfFailedSummary _ hf
  refine ⟨h.2.2.2, ?_⟩
  rw [h.1]
  norm_num [toFixed2, jsRound]

/-- Counterexample for C7: when `data_received` is present without a
`values.count` sub-field, the unguarded division of line 914 produces
`NaN` (modelled `none`), not the zero default the claim states. -/
theorem absent_byte_count_yields_nan :
    (calculateStats noByteCountSummary).dataReceived = none ∧
    (calculateStats noByteCountSummary).dataReceived ≠ some 0 := by
  refine ⟨rfl, by decide⟩

/-- C7 as amended: aggregation never fails on a well-formed summary; an
absent metric leaves every derived field at its zero default, and absent
numeric sub-fields read as 0 through the `|| 0` guards — except the
`data_received`/`data_sent` byte counts, which are divided unguarded, so
a present metric without `values.count` yields `NaN` rather than the
zero default. -/
theorem missing_data_defaults (s : Summary) :
    (calculateStatsChecked ⟨some s.metrics, some s.root_group⟩
      = .ok (calculateStats s)) ∧
    (getMetric s "http_reqs" = none → (calculateStats s).totalRequests = 0) ∧
    (getMetric s "http_req_failed" = none →
      (calculateStats s).failedRequests = 0 ∧
      (calculateStats s).successfulRequests = 0 ∧
      (calculateStats s).errorRate = 0 ∧
      (calculateStats s).successRate = 0) ∧
    (getMetric s "http_req_duration" = none →
      (calculateStats s).avgResponseTime = 0 ∧
      (calculateStats s).p95ResponseTime = 0 ∧
      (calculateStats s).maxResponseTime = 0 ∧
      (calculateStats s).minResponseTime = 0) ∧
    (getMetric s "vus" = none →
      (calculateStats s).maxVUs = 0 ∧ (calculateStats s).avgVUs = 0) ∧
    (getMetric s "iterations" = none → (calculateStats s).iterations = 0) ∧
    (getMetric s "data_received" = none → (calculateStats s).dataReceived = some 0) ∧
    (getMetric s "data_sent" = none → (calculateStats s).dataSent = some 0) ∧
    (s.root_group.checks = none → s.root_group.groups = none →
      (calculateStats s).checkPasses = 0 ∧
      (calculateStats s).checkFailures = 0 ∧
      (calculateStats s).totalChecks = 0) ∧
    (∀ m : Metric, getMetric s "http_reqs" = some m → m.values.count = none →
      (calculateStats s).totalRequests = 0) ∧
    (∀ m : Metric, getMetric s "http_req_failed" = some m → m.values.rate = none →
      (calculateStats s).failedRequests = 0 ∧ (calculateStats s).errorRate = 0) ∧
    (∀ m : Metric, getMetric s "http_req_duration" = some m → m.values.avg = none →
      (calculateStats s).avgResponseTime = 0) ∧
    (∀ m : Metric, getMetric s "data_received" = some m → m.values.count = none →
      (calculateStats s).dataReceived = none) ∧
    (∀ m : Metric, getMetric s "data_sent" = some m → m.values.count = none →
      (calculateStats s).dataSent = none) := by
  refine ⟨rfl, ?_, ?_, ?_, ?_, ?_, ?_, ?_, ?_, ?_, ?_, ?_, ?_, ?_⟩
  · intro h; simp [calculateStats, h]
  · intro h
    refine ⟨?_, ?_, ?_, ?_⟩ <;> simp [calculateStats, h]
  · intro h
    refine ⟨?_, ?_, ?_, ?_⟩ <;> simp [calculateStats, h]
  · intro h
    constructor <;> simp [calculateStats, h]
  · intro h; simp [calculateStats, h]
  · intro h; simp [calculateStats, h]
  · intro h; simp [calculateStats, h]
  · intro hc hg
    refine ⟨?_, ?_, ?_⟩ <;> simp [calculateStats, hc, hg, groupTally]
  · intro m hm hc; simp [calculateStats, hm, hc]
  · intro m hm hr
    constructor <;> simp [calculateStats, hm, hr, jsRound_zero, toFixed2_zero]
  · intro m hm ha; simp [calculateStats, hm, ha, toFixed2_zero]
  · intro m hm hc; simp [calculateStats, hm, hc]
  · intro m hm hc; simp [calculateStats, hm, hc]

/-- C8.  Aggregation (and hence `htmlReport`) raises a structural-access
fault exactly when the top-level `metrics` or `root_group` key is absent;
with both present it returns the rendered string. -/
theorem fault_iff_missing_top_level (d : DataObj) (o : ReportOptions) (now : String) :
    ((∃ e, calculateStatsChecked d = .error e)
        ↔ (d.metrics = none ∨ d.root_group = none)) ∧
    ((∃ e, htmlReport d o now = .error e)
        ↔ (d.metrics = none ∨ d.root_group = none)) ∧
    (∀ ms g, d.metrics = some ms → d.root_group = some g →
      htmlReport d o now
        = .ok (generateModernHTML (orDefault o.title now) (orDefault o.subtitle "")
            (orDefault o.httpMethod "") (calculateStats ⟨ms, g⟩) now)) := by
  rcases d with ⟨m, g⟩
  cases m <;> cases g <;>
    simp [calculateStatsChecked, htmlReport]

/-- C9.  `escapeHtml` maps its (string-coerced) input character by
character in place: each of `&`, `<`, `>`, `"`, `'` becomes its entity
and every other character passes through unchanged. -/
theorem escapeHtml_five_chars_only :
    (∀ s : String,
      escapeHtml s
        = String.join (s.data.map (fun c => escapeHtml (String.singleton c)))) ∧
    escapeHtml "&" = "&amp;" ∧
    escapeHtml "<" = "&lt;" ∧
    escapeHtml ">" = "&gt;" ∧
    escapeHtml "\"" = "&quot;" ∧
    escapeHtml "'" = "&#039;" ∧
    (∀ c : Char, c ≠ '&' → c ≠ '<' → c ≠ '>' → c ≠ '"' → c ≠ '\'' →
      escapeHtml (String.singleton c) = String.singleton c) := by
  refine ⟨?_, rfl, rfl, rfl, rfl, rfl, ?_⟩
  · intro s
    unfold escapeHtml
    congr 1
  · intro c h1 h2 h3 h4 h5
    have he : escapeChar c = String.singleton c := by
      unfold escapeChar
      rw [if_neg]
      simp [h1, h2, h3, h4, h5]
    simp [escapeHtml, String.singleton, String.join]
    rw [he]
    rfl

/-- Witness for C9: the character `a` passes through unchanged. -/
theorem escapeHtml_five_chars_only_witness :
    escapeHtml (String.singleton 'a') = String.singleton 'a' :=
  escapeHtml_five_chars_only.2.2.2.2.2.2 'a'
    (by decide) (by decide) (by decide) (by decide) (by decide)

/-- Counterexample for C10: with `http_reqs` absent and the positive rate
1/100000, the two-decimal `errorRate` the report renders is 0, not
positive as the claim states for every positive rate. -/
theorem tiny_rate_formats_to_zero :
    getMetric tinyRateSummary "http_reqs" = none ∧
    (∃ mf, getMetric tinyRateSummary "http_req_failed" = some mf ∧
      mf.values.rate = some (1/100000) ∧ (0 : ℚ) < 1/100000) ∧
    (calculateStats tinyRateSummary).errorRate = 0 := by
  have hf : getMetric tinyRateSummary "http_req_failed"
      = some { values := { rate := some (1/100000) } } := by
    simp [getMetric, tinyRateSummary, List.find?]
  refine ⟨rfl, ⟨_, hf, rfl, by norm_num⟩, ?_⟩
  simp [calculateStats, hf]
  norm_num [toFixed2, jsRound]

/-- C10 as amended: with `http_reqs` absent (`totalRequests = 0`) and
`http_req_failed` present with rate at least 1/20000 (so that the
two-decimal formatting is non-zero), `failedRequests` and
`successfulRequests` are 0 while `errorRate` is positive, and the overall
status — which tests only `failedRequests`, `checkFailures` and
`thresholdFailures` — is PASS whenever the latter two are zero. -/
theorem pass_banner_despite_error_rate (s : Summary) (mf : Metric) (r : ℚ)
    (hreqs : getMetric s "http_reqs" = none)
    (hf : getMetric s "http_req_failed" = some mf)
    (hrate : mf.values.rate = some r)
    (hbig : 1/20000 ≤ r) :
    (calculateStats s).totalRequests = 0 ∧
    (calculateStats s).failedRequests = 0 ∧
    (calculateStats s).successfulRequests = 0 ∧
    0 < (calculateStats s).errorRate ∧
    ((calculateStats s).checkFailures = 0 → (calculateStats s).thresholdFailures = 0 →
      testStatus (calculateStats s) = true ∧
      statusBanner (calculateStats s) = passBannerText) := by
  have htot : (calculateStats s).totalRequests = 0 := by
    simp [calculateStats, hreqs]
  have hfail : (calculateStats s).failedRequests = 0 := by
    simp [calculateStats, hreqs, hf, hrate]
    norm_num [jsRound]
  have hsucc : (calculateStats s).successfulRequests = 0 := by
    simp [calculateStats, hreqs, hf, hrate]
    norm_num [jsRound]
  have herr : (calculateStats s).errorRate = toFixed2 (r * 100) := by
    simp [calculateStats, hf, hrate]
  have hpos : 0 < (calculateStats s).errorRate := by
    rw [herr]
    unfold toFixed2 jsRound
    have h1 : (1 : ℤ) ≤ ⌊r * 100 * 100 + 1/2⌋ := by
      apply Int.le_floor.mpr
      push_cast
      linarith
    have h2 : (1 : ℚ) ≤ (⌊r * 100 * 100 + 1/2⌋ : ℚ) := by exact_mod_cast h1
    linarith
  refine ⟨htot, hfail, hsucc, hpos, ?_⟩
  intro hc ht
  have hstatus : testStatus (calculateStats s) = true :=
    (testStatus_eq_true_iff _).mpr ⟨hfail, hc, ht⟩
  exact ⟨hstatus, by simp [statusBanner, hstatus]⟩

/-- Witness for C10: on `onePercentRateSummary` (rate 1/100, no
requests, no checks, no thresholds) the error rate is positive and the
banner still reads PASS. -/
theorem pass_banner_despite_error_rate_witness :
    0 < (calculateStats onePercentRateSummary).errorRate ∧
    statusBanner (calculateStats onePercentRateSummary) = passBannerText := by
  have hreqs : getMetric onePercentRateSummary "http_reqs" = none := rfl
  have hf : getMetric onePercentRateSummary "http_req_failed"
      = some { values := { rate := some (1/100) } } := by
    simp [getMetric, onePercentRateSummary, List.find?]
  have h := pass_banner_despite_error_rate onePercentRateSummary _ (1/100)
    hreqs hf rfl (by norm_num)
  exact ⟨h.2.2.2.1, (h.2.2.2.2 rfl rfl).2⟩

end K6
